import Mathlib

/-!
Verification development for the Osmium command-execution gateway
(`ai_assistant/services/erpnext_exec.py` and `ai_assistant/services/erpnext_api.py`).

The Python code is shallowly embedded: pure helpers become Lean functions on
`String`/`List Char`; the effectful collaborators (frappe database, document
store, process runner, settings store) are abstracted into an `Env` record of
oracles, and each executor entry point returns its result together with the
list of collaborator events it emitted, so that properties of the form
"the backend is never invoked" become statements about the event trace.
-/

namespace Osmium

/-! ### Python character and string primitives

Python `str.strip()`/`str.split()` treat the characters space, tab, newline,
carriage return, vertical tab and form feed as whitespace; `\w` in an ASCII
setting is letters, digits and underscore.  All strings handled by the
gateway are ASCII command text, so the ASCII fragments of `upper`/`lower`
and of the regex character classes are the relevant ones. -/

def pyIsSpace (c : Char) : Bool :=
  c = ' ' || c = '\t' || c = '\n' || c = '\r' || c = Char.ofNat 11 || c = Char.ofNat 12

def isWordCharB (c : Char) : Bool :=
  ('a' ≤ c && c ≤ 'z') || ('A' ≤ c && c ≤ 'Z') || ('0' ≤ c && c ≤ '9') || c = '_'

def asciiUpperChar (c : Char) : Char :=
  if 'a' ≤ c && c ≤ 'z' then Char.ofNat (c.toNat - 32) else c

def asciiLowerChar (c : Char) : Char :=
  if 'A' ≤ c && c ≤ 'Z' then Char.ofNat (c.toNat + 32) else c

def pyUpper (s : String) : String := ⟨s.data.map asciiUpperChar⟩

def pyLower (s : String) : String := ⟨s.data.map asciiLowerChar⟩

def stripList (cs : List Char) : List Char :=
  ((cs.dropWhile pyIsSpace).reverse.dropWhile pyIsSpace).reverse

/-- Python `str.strip()` with no argument. -/
def pyStrip (s : String) : String := ⟨stripList s.data⟩

/-- Python str.strip with the two quote characters as the strip set
(used on document keys and search terms). -/
def isQuoteChar (c : Char) : Bool := c = '"' || c = Char.ofNat 39

def pyStripQuotes (s : String) : String :=
  ⟨((s.data.dropWhile isQuoteChar).reverse.dropWhile isQuoteChar).reverse⟩

def splitWsAux : List Char → List Char → List String
  | [], acc => if acc.isEmpty then [] else [⟨acc.reverse⟩]
  | c :: cs, acc =>
    if pyIsSpace c then
      if acc.isEmpty then splitWsAux cs [] else ⟨acc.reverse⟩ :: splitWsAux cs []
    else splitWsAux cs (c :: acc)

/-- Python `str.split()` with no argument: split on runs of whitespace,
discarding empty pieces. -/
def pySplitWs (s : String) : List String := splitWsAux s.data []

def pyStartsWith (s p : String) : Bool := List.isPrefixOf p.data s.data

/-- The text after the first occurrence of `pat` in `cs`
(`s.split(pat, 1)[1]` when the result is `some`); `none` when `pat` does not
occur, so `isSome` is Python `pat in s`. -/
def afterSubL (cs pat : List Char) : Option (List Char) :=
  match cs with
  | [] => if pat.isEmpty then some [] else none
  | _ :: rest => if List.isPrefixOf pat cs then some (cs.drop pat.length) else afterSubL rest pat

def pyContains (s sub : String) : Bool := (afterSubL s.data sub.data).isSome

/-! ### Security Screener (`ERPNextExecutor._perform_security_checks`) -/

/-- The set `ERPNextExecutor.SHELL_METACHARACTERS`, in source listing order.  The
Python class attribute is a `set`, whose iteration order is unspecified; the
claims proved below about the named offending character only reason about
which characters can be named, or use inputs containing a single
metacharacter, so fixing the listing order is faithful. -/
def SHELL_METACHARACTERS : List Char :=
  [';', '|', '&', '$', Char.ofNat 96, '>', '<', '*', '?', '[', ']',
   '(', ')', Char.ofNat 123, Char.ofNat 125, '\\', '"', Char.ofNat 39, '\n', '\r']

def sq : String := String.singleton (Char.ofNat 39)

/-- The rejection reason produced for a shell metacharacter `c`. -/
def metaReason (c : Char) : String :=
  "Shell metacharacter " ++ sq ++ String.singleton c ++ sq ++ " not allowed for security"

def findMetachar (cmd : String) : Option Char :=
  SHELL_METACHARACTERS.find? (fun c => cmd.data.contains c)

/-- Case-insensitive (ASCII) prefix test, for `re.IGNORECASE` patterns. -/
def ciIsPrefixOfL : List Char → List Char → Bool
  | [], _ => true
  | _ :: _, [] => false
  | p :: ps, c :: cs => (asciiLowerChar p = asciiLowerChar c) && ciIsPrefixOfL ps cs

/-- A `\bPAT\b` match starting at this position, for a pattern that starts
and ends with word characters (all the screened tokens do): the previous
character must not be a word character and neither may the character that
follows the match. -/
def wbMatchHere (pat cs : List Char) (prevWord : Bool) : Bool :=
  !prevWord && ciIsPrefixOfL pat cs &&
    (match cs.drop pat.length with
     | [] => true
     | d :: _ => !isWordCharB d)

def wbOccurs (pat : List Char) : List Char → Bool → Bool
  | [], _ => false
  | c :: rest, prevWord =>
    wbMatchHere pat (c :: rest) prevWord || wbOccurs pat rest (isWordCharB c)

/-- Embedding of `\bUNION\b.*\bSELECT\b`: a word-bounded UNION followed anywhere later by a
word-bounded SELECT.  (`.` does not cross newlines, but the metacharacter
check has already excluded newlines by the time this pattern is tried.) -/
def unionSelectHit : List Char → Bool → Bool
  | [], _ => false
  | c :: rest, prevWord =>
    (wbMatchHere "UNION".data (c :: rest) prevWord &&
      wbOccurs "SELECT".data ((c :: rest).drop 5) true) ||
    unionSelectHit rest (isWordCharB c)

/-- Embedding of `\bINTO\s+OUTFILE\b` (the second alternative of the file-operation
pattern). -/
def intoOutfileHit : List Char → Bool → Bool
  | [], _ => false
  | c :: rest, prevWord =>
    (!prevWord && ciIsPrefixOfL "INTO".data (c :: rest) &&
      (let r1 := (c :: rest).drop 4
       match r1 with
       | [] => false
       | d :: _ =>
         pyIsSpace d &&
         (let r2 := r1.dropWhile pyIsSpace
          ciIsPrefixOfL "OUTFILE".data r2 &&
            (match r2.drop 7 with
             | [] => true
             | e :: _ => !isWordCharB e)))) ||
    intoOutfileHit rest (isWordCharB c)

/-- Embedding of `\bLOAD\s+DATA\b` (the second alternative of the file-loading pattern). -/
def loadDataHit : List Char → Bool → Bool
  | [], _ => false
  | c :: rest, prevWord =>
    (!prevWord && ciIsPrefixOfL "LOAD".data (c :: rest) &&
      (let r1 := (c :: rest).drop 4
       match r1 with
       | [] => false
       | d :: _ =>
         pyIsSpace d &&
         (let r2 := r1.dropWhile pyIsSpace
          ciIsPrefixOfL "DATA".data r2 &&
            (match r2.drop 4 with
             | [] => true
             | e :: _ => !isWordCharB e)))) ||
    loadDataHit rest (isWordCharB c)

/-- Embedding of `--\s*$`: the string ends in `--` followed only by whitespace.
(Python `$` also matches just before a final newline, but newlines are
already excluded by the metacharacter check.) -/
def dashDashEnd (cs : List Char) : Bool :=
  match cs.reverse.dropWhile pyIsSpace with
  | a :: b :: _ => a = '-' && b = '-'
  | _ => false

def containsSubL (cs pat : List Char) : Bool :=
  match cs with
  | [] => pat.isEmpty
  | _ :: rest => List.isPrefixOf pat cs || containsSubL rest pat

/-- Embedding of `/\*.*?\*/`: an opening block-comment marker with a closing marker
somewhere after it. -/
def blockCommentHit : List Char → Bool
  | [] => false
  | c :: rest =>
    (c = '/' && (match rest with
                 | d :: r2 => d = '*' && containsSubL r2 "*/".data
                 | [] => false)) ||
    blockCommentHit rest

/-- The `suspicious_patterns` loop of `_perform_security_checks`, as a single
boolean (every pattern produces the same generic reason, so the order of the
alternatives is immaterial). -/
def suspiciousHit (cmd : String) : Bool :=
  let cs := cmd.data
  dashDashEnd cs || blockCommentHit cs ||
  unionSelectHit cs false ||
  wbOccurs "EXEC".data cs false || wbOccurs "XP_".data cs false ||
  wbOccurs "SP_".data cs false ||
  wbOccurs "FILE".data cs false || intoOutfileHit cs false ||
  wbOccurs "LOAD_FILE".data cs false || loadDataHit cs false

structure SecurityVerdict where
  safe : Bool
  reason : String
deriving Repr, DecidableEq

/-- Embedding of `ERPNextExecutor._perform_security_checks`. -/
def performSecurityChecks (command : String) : SecurityVerdict :=
  match findMetachar command with
  | some c => ⟨false, metaReason c⟩
  | none =>
    if command.length > 2000 then ⟨false, "Command too long (max 2000 characters)"⟩
    else if suspiciousHit command then ⟨false, "Potentially dangerous pattern detected"⟩
    else ⟨true, ""⟩

/-! ### Command Classifier -/

def sqlKeywords : List String :=
  ["SELECT", "INSERT", "UPDATE", "DELETE", "CREATE", "DROP", "ALTER",
   "TRUNCATE", "SHOW", "DESCRIBE", "DESC", "EXPLAIN", "REPLACE",
   "MERGE", "CALL", "EXECUTE", "WITH", "UNION", "JOIN"]

/-- Embedding of `ERPNextExecutor._is_sql_command`.  The Python code indexes
`command.strip().split()[0]`, which raises on a whitespace-only string, but
`execute_command` rejects empty and whitespace-only commands before calling
it; the `[]` case below is therefore unreachable from `executeCommand`. -/
def isSqlCommand (command : String) : Bool :=
  match pySplitWs (pyStrip command) with
  | [] => false
  | w :: _ => sqlKeywords.contains (pyUpper w)

def apiPatterns : List String :=
  ["create ", "new ", "insert ",
   "get ", "read ", "fetch ", "find ",
   "update ", "modify ", "edit ",
   "delete ", "remove ",
   "list ", "search "]

/-- Embedding of `ERPNextExecutor._is_api_command`. -/
def isApiCommand (command : String) : Bool :=
  let cl := pyStrip (pyLower command)
  apiPatterns.any (fun p => pyStartsWith cl p)

def ALLOWED_BENCH_COMMANDS : List String :=
  ["version", "--version", "--help", "-h", "help",
   "list-apps", "get-config", "site-info",
   "get-doc", "set-value", "list-docs", "get-value",
   "new-doc", "delete-doc",
   "export-csv", "export-json", "import-csv", "import-json",
   "show-config", "doctor", "ready-for-migration",
   "list-users"]

def BLOCKED_ADMIN_COMMANDS : List String :=
  ["migrate", "rollback-migration", "clear-cache", "clear-website-cache",
   "backup", "restore", "install-app", "uninstall-app", "update", "pull",
   "setup", "new-site", "drop-site", "reinstall", "bench-update",
   "restart", "start", "stop", "reload-nginx", "setup-nginx",
   "execute", "console", "mariadb", "add-user", "set-admin-password", "disable-user"]

/-- Embedding of `ERPNextExecutor._is_bench_command`. -/
def isBenchCommand (command : String) : Bool :=
  pyStartsWith (pyStrip command) "bench " || ALLOWED_BENCH_COMMANDS.contains (pyStrip command)

/-- The `kind` of a command, read off from the dispatch chain of
`execute_command` (SQL test first, then API verb test, then bench test,
otherwise unrecognized). -/
inductive CommandKind
  | SqlQuery
  | DocumentOperation
  | ToolInvocation
  | Unrecognized
deriving Repr, DecidableEq

def classifyCommand (command : String) : CommandKind :=
  if isSqlCommand command then CommandKind.SqlQuery
  else if isApiCommand command then CommandKind.DocumentOperation
  else if isBenchCommand command then CommandKind.ToolInvocation
  else CommandKind.Unrecognized

/-! ### Data model: results, collaborator events, environment

Python results are dictionaries whose key sets differ between code paths;
`ExecutionResult` models the union of all keys that any path of
`execute_command` / `ERPNextAPIService` ever produces, with `none` standing
for an absent key. -/

/-- A row returned by `frappe.db.sql`: a dict row (`as_dict=True`) or a
tuple row. -/
inductive Row
  | dict (kv : List (String × String))
  | tup (cols : List String)
deriving Repr, DecidableEq

/-- The `data` payload of a document-store result: one document rendered
`as_dict`, or a list of documents. -/
inductive DocData
  | doc (kv : List (String × String))
  | docs (rows : List (List (String × String)))
deriving Repr, DecidableEq

structure ExecutionResult where
  success : Bool
  output : Option String := none
  error : Option String := none
  executionTime : Option Nat := none
  requires_confirmation : Option Bool := none
  command : Option String := none
  command_type : Option String := none
  description : Option String := none
  data : Option DocData := none
  name : Option String := none
  message : Option String := none
  count : Option Nat := none
deriving Repr, DecidableEq

/-- Embedding of `ERPNextExecutor._error_result`. -/
def errorResult (errorMessage : String) (t : Nat) : ExecutionResult :=
  { success := false, output := some "", error := some errorMessage, executionTime := some t }

/-- One call to a collaborator (query backend, process runner, document
store). -/
inductive Event
  | dbBegin
  | dbExecute (stmt : String)
  | dbCommit
  | dbRollback
  | dbRowCount
  | procRun (argv : List String)
  | docCreate (doctype : String) (data : List (String × String))
  | docGet (doctype name : String)
  | docUpdate (doctype name : String) (data : List (String × String))
  | docDelete (doctype name : String)
  | docList (doctype : String)
  | docSearch (doctype term : String)
deriving Repr, DecidableEq

def isDbExecute : Event → Bool
  | Event.dbExecute _ => true
  | _ => false

def dbExecuteCount (es : List Event) : Nat := (es.filter isDbExecute).length

/-- The `AI Assistant Settings` single read by the SQL confirmation gate. -/
structure Settings where
  confirm_sql_operations : Bool
deriving Repr, DecidableEq

structure ProcOut where
  returncode : Int
  stdout : String
  stderr : String
deriving Repr, DecidableEq

inductive ProcResult
  | finished (out : ProcOut)
  | timedOut
  | failed (msg : String)
deriving Repr, DecidableEq

/-- The effectful collaborators, abstracted as oracles.  `Except.error`
models a raised exception.  The wall-clock reads are abstracted into one
elapsed-milliseconds value (`int((time.time() - start_time) * 1000)`), a
natural number since the clock readings are taken in order. -/
structure Env where
  siteName : String
  elapsedMs : Nat
  /-- Embedding of `frappe.get_single("AI Assistant Settings")`: raised exception, falsy
  settings object, or settings. -/
  getSettings : Except Unit (Option Settings)
  /-- Embedding of `frappe.db.sql(stmt, as_dict)`. -/
  db : String → Bool → Except String (List Row)
  /-- Embedding of `frappe.db.sql("SELECT ROW_COUNT() as affected_rows", as_dict=True)`,
  the row-count primitive: `none` models an empty result list (rendered
  `Unknown`). -/
  rowCount : Except String (Option Int)
  /-- Embedding of `subprocess.run(argv, ...)`. -/
  runProc : List String → ProcResult
  /-- Embedding of `frappe.has_permission(doctype, ptype)`, with the concrete document
  name when the check is made against a fetched document. -/
  hasPermission : String → String → Option String → Bool
  /-- Embedding of `frappe.db.exists(doctype, name)`. -/
  docExists : String → String → Bool
  /-- Embedding of `frappe.get_doc(dict(data, doctype=doctype)); doc.insert()`; returns
  `doc.name` and `doc.as_dict()`. -/
  insertDoc : String → List (String × String) → Except String (String × List (String × String))
  /-- Embedding of `frappe.get_doc(doctype, name).as_dict()`. -/
  getDoc : String → String → Except String (List (String × String))
  /-- Embedding of `doc.update(data); doc.save()`; returns the saved `as_dict`. -/
  saveDoc : String → String → List (String × String) → Except String (List (String × String))
  /-- Embedding of `frappe.delete_doc(doctype, name)`. -/
  deleteDoc : String → String → Except String Unit
  /-- Embedding of `frappe.get_all(doctype=doctype, limit_page_length=limit)` — the
  executor never passes truthy filters, fields or order_by. -/
  getAll : String → Nat → Except String (List (List (String × String)))
  /-- The parameterized LIKE query of `_search_documents_direct`. -/
  searchSql : String → String → Nat → Except String (List (List (String × String)))

/-! ### SQL Execution Engine (`ERPNextExecutor._execute_sql_command`) -/

/-- The keyword list of the data-modification branch
(`erpnext_exec.py:231`). -/
def sqlTxnKeywords : List String :=
  ["INSERT", "UPDATE", "DELETE", "CREATE", "DROP", "ALTER", "TRUNCATE"]

/-- The keyword list of the information branch (`erpnext_exec.py:245`). -/
def sqlInfoKeywords : List String := ["SHOW", "DESCRIBE", "DESC"]

/-- A plain rendering standing in for `json.dumps(result, indent=2,
default=str)`; no claim inspects the rendered text, only that the `output`
field is a string derived from the row set. -/
def jsonDumpRow : Row → String
  | Row.dict kv =>
    String.singleton (Char.ofNat 123) ++
      String.intercalate ", " (kv.map fun p => "\"" ++ p.1 ++ "\": \"" ++ p.2 ++ "\"") ++
      String.singleton (Char.ofNat 125)
  | Row.tup cols => "[" ++ String.intercalate ", " cols ++ "]"

def jsonDump (rows : List Row) : String :=
  "[" ++ String.intercalate ", " (rows.map jsonDumpRow) ++ "]"

/-- Embedding of `ERPNextExecutor._format_sql_result`. -/
def formatSqlResult (rows : List Row) : String :=
  match rows with
  | [] => "No results found."
  | Row.dict _ :: _ => jsonDump rows
  | _ =>
    String.intercalate "\n"
      (rows.map fun r =>
        match r with
        | Row.tup cols => String.intercalate " | " cols
        | Row.dict kv => jsonDumpRow (Row.dict kv))

/-- The confirmation decision of `_execute_sql_command`: `if not
force_execute and frappe:` followed by the try/except around
`frappe.get_single` — a raised settings read or a falsy settings object
falls through to execution. -/
def sqlConfirmFlag (env : Env) (force : Bool) : Bool :=
  if force then false
  else
    match env.getSettings with
    | Except.error _ => false
    | Except.ok none => false
    | Except.ok (some s) => s.confirm_sql_operations

/-- The statement-execution part of `_execute_sql_command` (after the
confirmation gate).  The caller passes the stripped command, which is
nonempty, so the `headD ""` default is unreachable (Python would raise on
an empty split).  The `SELECT ROW_COUNT()` call is the backend row-count
primitive and is recorded as a distinct `dbRowCount` event, not as a
statement execution. -/
def runSqlStatement (env : Env) (command : String) : ExecutionResult × List Event :=
  let fw := pyUpper ((pySplitWs (pyStrip command)).headD "")
  if sqlTxnKeywords.contains fw then
    match env.db command false with
    | Except.error e =>
      (errorResult ("SQL error: " ++ e) env.elapsedMs,
       [Event.dbBegin, Event.dbExecute command, Event.dbRollback])
    | Except.ok _ =>
      match env.rowCount with
      | Except.error e =>
        (errorResult ("SQL error: " ++ e) env.elapsedMs,
         [Event.dbBegin, Event.dbExecute command, Event.dbCommit, Event.dbRowCount,
          Event.dbRollback])
      | Except.ok n =>
        ({ success := true,
           output := some ("Command executed successfully. Affected rows: " ++
             (match n with | some k => toString k | none => "Unknown")),
           error := some "", executionTime := some env.elapsedMs },
         [Event.dbBegin, Event.dbExecute command, Event.dbCommit, Event.dbRowCount])
  else if sqlInfoKeywords.contains fw then
    match env.db command false with
    | Except.error e =>
      (errorResult ("SQL error: " ++ e) env.elapsedMs, [Event.dbExecute command])
    | Except.ok rows =>
      ({ success := true, output := some (formatSqlResult rows), error := some "",
         executionTime := some env.elapsedMs }, [Event.dbExecute command])
  else
    match env.db command true with
    | Except.error e =>
      (errorResult ("SQL error: " ++ e) env.elapsedMs, [Event.dbExecute command])
    | Except.ok rows =>
      ({ success := true, output := some (formatSqlResult rows), error := some "",
         executionTime := some env.elapsedMs }, [Event.dbExecute command])

/-- Embedding of `ERPNextExecutor._execute_sql_command`. -/
def executeSqlCommand (env : Env) (command : String) (force : Bool) :
    ExecutionResult × List Event :=
  if sqlConfirmFlag env force then
    ({ success := false, output := some "", error := some "SQL command requires user confirmation",
       requires_confirmation := some true, command := some command,
       command_type := some "sql", description := some ("Execute SQL: " ++ command),
       executionTime := some env.elapsedMs }, [])
  else runSqlStatement env command

/-! ### Document store service (`ERPNextAPIService`, direct Frappe methods)

The executor constructs the service with `use_rest_api=False`, so only the
`_*_direct` implementations are reachable.  Each `_*_direct` function is
embedded as an `Except String ExecutionResult` (a raised exception
propagates to the public wrapper, whose `try/except` converts it into a
`Failed to ...` result). -/

/-- Embedding of `ERPNextAPIService._create_document_direct`. -/
def createDocumentDirect (env : Env) (doctype : String) (data : List (String × String)) :
    Except String ExecutionResult :=
  if !(env.hasPermission doctype "create" none) then
    Except.ok { success := false, error := some ("No permission to create " ++ doctype) }
  else
    match env.insertDoc doctype data with
    | Except.error e => Except.error e
    | Except.ok (nm, asDict) =>
      Except.ok { success := true, data := some (DocData.doc asDict), name := some nm,
                  message := some (doctype ++ " created successfully") }

/-- Embedding of `ERPNextAPIService.create_document` (with `use_rest_api=False`). -/
def create_document (env : Env) (doctype : String) (data : List (String × String)) :
    ExecutionResult :=
  match createDocumentDirect env doctype data with
  | Except.ok r => r
  | Except.error e =>
    { success := false, error := some ("Failed to create " ++ doctype ++ ": " ++ e) }

/-- Embedding of `ERPNextAPIService._get_document_direct`.  The executor always calls it
with `fields=None`, so only the `as_dict` branch is reachable; the truthy
`fields` branch is modelled as the key projection of the dict
(`hasattr`/`doc.get` approximated by key presence in `as_dict`). -/
def getDocumentDirect (env : Env) (doctype nm : String) (fields : Option (List String)) :
    Except String ExecutionResult :=
  if !(env.docExists doctype nm) then
    Except.ok { success := false, error := some (doctype ++ " " ++ nm ++ " not found") }
  else
    match env.getDoc doctype nm with
    | Except.error e => Except.error e
    | Except.ok kv =>
      if !(env.hasPermission doctype "read" (some nm)) then
        Except.ok { success := false,
                    error := some ("No permission to read " ++ doctype ++ " " ++ nm) }
      else
        let docData :=
          match fields with
          | some (f :: fs) =>
            DocData.doc ((f :: fs).filterMap fun fld => (kv.lookup fld).map fun v => (fld, v))
          | _ => DocData.doc kv
        Except.ok { success := true, data := some docData }

/-- Embedding of `ERPNextAPIService.get_document`. -/
def get_document (env : Env) (doctype nm : String) : ExecutionResult :=
  match getDocumentDirect env doctype nm none with
  | Except.ok r => r
  | Except.error e =>
    { success := false,
      error := some ("Failed to get " ++ doctype ++ " " ++ nm ++ ": " ++ e) }

/-- Embedding of `ERPNextAPIService._update_document_direct`. -/
def updateDocumentDirect (env : Env) (doctype nm : String) (data : List (String × String)) :
    Except String ExecutionResult :=
  if !(env.docExists doctype nm) then
    Except.ok { success := false, error := some (doctype ++ " " ++ nm ++ " not found") }
  else
    match env.getDoc doctype nm with
    | Except.error e => Except.error e
    | Except.ok _ =>
      if !(env.hasPermission doctype "write" (some nm)) then
        Except.ok { success := false,
                    error := some ("No permission to update " ++ doctype ++ " " ++ nm) }
      else
        match env.saveDoc doctype nm data with
        | Except.error e => Except.error e
        | Except.ok saved =>
          Except.ok { success := true, data := some (DocData.doc saved),
                      message := some (doctype ++ " " ++ nm ++ " updated successfully") }

/-- Embedding of `ERPNextAPIService.update_document`. -/
def update_document (env : Env) (doctype nm : String) (data : List (String × String)) :
    ExecutionResult :=
  match updateDocumentDirect env doctype nm data with
  | Except.ok r => r
  | Except.error e =>
    { success := false,
      error := some ("Failed to update " ++ doctype ++ " " ++ nm ++ ": " ++ e) }

/-- Embedding of `ERPNextAPIService._delete_document_direct`. -/
def deleteDocumentDirect (env : Env) (doctype nm : String) :
    Except String ExecutionResult :=
  if !(env.docExists doctype nm) then
    Except.ok { success := false, error := some (doctype ++ " " ++ nm ++ " not found") }
  else
    match env.getDoc doctype nm with
    | Except.error e => Except.error e
    | Except.ok _ =>
      if !(env.hasPermission doctype "delete" (some nm)) then
        Except.ok { success := false,
                    error := some ("No permission to delete " ++ doctype ++ " " ++ nm) }
      else
        match env.deleteDoc doctype nm with
        | Except.error e => Except.error e
        | Except.ok _ =>
          Except.ok { success := true,
                      message := some (doctype ++ " " ++ nm ++ " deleted successfully") }

/-- Embedding of `ERPNextAPIService.delete_document`. -/
def delete_document (env : Env) (doctype nm : String) : ExecutionResult :=
  match deleteDocumentDirect env doctype nm with
  | Except.ok r => r
  | Except.error e =>
    { success := false,
      error := some ("Failed to delete " ++ doctype ++ " " ++ nm ++ ": " ++ e) }

/-- Embedding of `ERPNextAPIService._list_documents_direct`.  The executor passes
`filters` as `None` or `{}` (both falsy) and never passes fields or
order_by, so the query reduces to doctype and page length. -/
def listDocumentsDirect (env : Env) (doctype : String) (limit : Nat) :
    Except String ExecutionResult :=
  if !(env.hasPermission doctype "read" none) then
    Except.ok { success := false, error := some ("No permission to read " ++ doctype) }
  else
    match env.getAll doctype limit with
    | Except.error e => Except.error e
    | Except.ok docs =>
      Except.ok { success := true, data := some (DocData.docs docs),
                  count := some docs.length }

/-- Embedding of `ERPNextAPIService.list_documents`. -/
def list_documents (env : Env) (doctype : String) (limit : Nat) : ExecutionResult :=
  match listDocumentsDirect env doctype limit with
  | Except.ok r => r
  | Except.error e =>
    { success := false, error := some ("Failed to list " ++ doctype ++ ": " ++ e) }

/-- Embedding of `ERPNextAPIService._search_documents_direct`. -/
def searchDocumentsDirect (env : Env) (doctype term : String) (limit : Nat) :
    Except String ExecutionResult :=
  if !(env.hasPermission doctype "read" none) then
    Except.ok { success := false, error := some ("No permission to read " ++ doctype) }
  else
    match env.searchSql doctype term limit with
    | Except.error e => Except.error e
    | Except.ok rows =>
      Except.ok { success := true, data := some (DocData.docs rows),
                  count := some rows.length }

/-- Embedding of `ERPNextAPIService.search_documents`. -/
def search_documents (env : Env) (doctype term : String) (limit : Nat) : ExecutionResult :=
  match searchDocumentsDirect env doctype term limit with
  | Except.ok r => r
  | Except.error e =>
    { success := false, error := some ("Failed to search " ++ doctype ++ ": " ++ e) }

/-! ### Key/value extraction

The findall of the key/value regex used by the create and update
handlers: one or more word characters, then an equals sign, then either a
double-quoted body, a single-quoted body, or one or more non-whitespace
characters.  The pattern admits no backtracking into
`\w+` (every proper prefix of a maximal word run is followed by a word
character, not `=`), so a match at a position is: a maximal nonempty word
run, then `=`, then the first alternative of double-quoted body,
single-quoted body, or a maximal nonempty run of non-whitespace.  Python
then takes `match[1] or match[2] or match[3]`, which is exactly the text
captured by whichever alternative matched (an empty quoted capture falls
through the `or` chain to the empty bare capture, yielding the same empty
string). -/

def bareValue (cs : List Char) : Option (List Char × List Char) :=
  let v := cs.takeWhile (fun d => !pyIsSpace d)
  if v.isEmpty then none else some (v, cs.drop v.length)

def matchValue (cs : List Char) : Option (List Char × List Char) :=
  match cs with
  | [] => none
  | c :: rest =>
    if c = '"' then
      let inner := rest.takeWhile (fun d => d ≠ '"')
      match rest.drop inner.length with
      | '"' :: r2 => some (inner, r2)
      | _ => bareValue (c :: rest)
    else if c = Char.ofNat 39 then
      let inner := rest.takeWhile (fun d => d ≠ Char.ofNat 39)
      match rest.drop inner.length with
      | q :: r2 => if q = Char.ofNat 39 then some (inner, r2) else bareValue (c :: rest)
      | _ => bareValue (c :: rest)
    else bareValue (c :: rest)

def matchKV (cs : List Char) : Option ((String × String) × List Char) :=
  let run := cs.takeWhile isWordCharB
  match run, cs.drop run.length with
  | [], _ => none
  | _ :: _, '=' :: rest2 =>
    match matchValue rest2 with
    | some (v, rest3) => some ((⟨run⟩, ⟨v⟩), rest3)
    | none => none
  | _ :: _, _ => none

def findKVAux : Nat → List Char → List (String × String)
  | 0, _ => []
  | _ + 1, [] => []
  | fuel + 1, c :: rest =>
    match matchKV (c :: rest) with
    | some (kv, restAfter) => kv :: findKVAux fuel restAfter
    | none => findKVAux fuel rest

/-- All key/value matches in scan order (the fuel equals the input length;
each step consumes at least one character, so it never runs out). -/
def findKV (cs : List Char) : List (String × String) := findKVAux cs.length cs

/-- Python dict insertion semantics: a repeated key overwrites in place,
a new key appends. -/
def dictUpsert (d : List (String × String)) (k v : String) : List (String × String) :=
  if d.any (fun p => p.1 = k) then d.map (fun p => if p.1 = k then (k, v) else p)
  else d ++ [(k, v)]

def dictFromPairs (ps : List (String × String)) : List (String × String) :=
  ps.foldl (fun d p => dictUpsert d p.1 p.2) []

/-! ### Document-Operation Parser and handlers
(`ERPNextExecutor._handle_*_command`) -/

/-- The parsing portion of `ERPNextExecutor._handle_create_command`:
`parts[1]` is the entity type, and when the substring `with` occurs, the
key/value pairs are extracted from `command.split("with", 1)[1].strip()`;
`none` is the `len(parts) < 2` format error. -/
def parseCreateCommand (command : String) : Option (String × List (String × String)) :=
  match pySplitWs command with
  | _ :: doctype :: _ =>
    some (doctype,
      match afterSubL command.data "with".data with
      | some tailCs => dictFromPairs (findKV (stripList tailCs))
      | none => [])
  | _ => none

def handleCreateCommand (env : Env) (command : String) : ExecutionResult × List Event :=
  match parseCreateCommand command with
  | none => (errorResult "Invalid create command format" env.elapsedMs, [])
  | some (doctype, data) =>
    let r := create_document env doctype data
    ({ r with executionTime := some env.elapsedMs }, [Event.docCreate doctype data])

/-- Embedding of `ERPNextExecutor._handle_read_command`.  Both arms of the `where` branch
call `list_documents` with page length 10 (the empty filter dict is falsy
inside the service, so it adds nothing to the query). -/
def handleReadCommand (env : Env) (command : String) : ExecutionResult × List Event :=
  match pySplitWs command with
  | _ :: doctype :: rest =>
    match rest with
    | p2 :: _ =>
      if !(pyStartsWith p2 "where") then
        let nm := pyStripQuotes p2
        let r := get_document env doctype nm
        ({ r with executionTime := some env.elapsedMs }, [Event.docGet doctype nm])
      else
        let r := list_documents env doctype 10
        ({ r with executionTime := some env.elapsedMs }, [Event.docList doctype])
    | [] =>
      let r := list_documents env doctype 10
      ({ r with executionTime := some env.elapsedMs }, [Event.docList doctype])
  | _ => (errorResult "Invalid read command format" env.elapsedMs, [])

/-- Embedding of `ERPNextExecutor._handle_update_command`. -/
def handleUpdateCommand (env : Env) (command : String) : ExecutionResult × List Event :=
  match pySplitWs command with
  | _ :: doctype :: nm0 :: _ :: _ =>
    let nm := pyStripQuotes nm0
    let data :=
      match afterSubL command.data "set".data with
      | some tailCs => dictFromPairs (findKV (stripList tailCs))
      | none => []
    let r := update_document env doctype nm data
    ({ r with executionTime := some env.elapsedMs }, [Event.docUpdate doctype nm data])
  | _ => (errorResult "Invalid update command format" env.elapsedMs, [])

/-- Embedding of `ERPNextExecutor._handle_delete_command`. -/
def handleDeleteCommand (env : Env) (command : String) : ExecutionResult × List Event :=
  match pySplitWs command with
  | _ :: doctype :: nm0 :: _ =>
    let nm := pyStripQuotes nm0
    let r := delete_document env doctype nm
    ({ r with executionTime := some env.elapsedMs }, [Event.docDelete doctype nm])
  | _ => (errorResult "Invalid delete command format" env.elapsedMs, [])

/-- Embedding of `ERPNextExecutor._handle_list_command`. -/
def handleListCommand (env : Env) (command : String) : ExecutionResult × List Event :=
  match pySplitWs command with
  | _ :: doctype :: _ =>
    if pyStartsWith (pyLower command) "search" && pyContains command "for" then
      let term := pyStripQuotes (pyStrip ⟨(afterSubL command.data "for".data).getD []⟩)
      let r := search_documents env doctype term 10
      ({ r with executionTime := some env.elapsedMs }, [Event.docSearch doctype term])
    else
      let r := list_documents env doctype 20
      ({ r with executionTime := some env.elapsedMs }, [Event.docList doctype])
  | _ => (errorResult "Invalid list command format" env.elapsedMs, [])

/-- Embedding of `ERPNextExecutor._execute_api_command`. -/
def executeApiCommand (env : Env) (command : String) : ExecutionResult × List Event :=
  let cl := pyStrip (pyLower command)
  if pyStartsWith cl "create " || pyStartsWith cl "new " || pyStartsWith cl "insert " then
    handleCreateCommand env command
  else if pyStartsWith cl "get " || pyStartsWith cl "read " || pyStartsWith cl "fetch " ||
      pyStartsWith cl "find " then
    handleReadCommand env command
  else if pyStartsWith cl "update " || pyStartsWith cl "modify " || pyStartsWith cl "edit " then
    handleUpdateCommand env command
  else if pyStartsWith cl "delete " || pyStartsWith cl "remove " then
    handleDeleteCommand env command
  else if pyStartsWith cl "list " || pyStartsWith cl "search " then
    handleListCommand env command
  else (errorResult "API command not recognized" env.elapsedMs, [])

/-! ### Tool Command Gate (`_is_allowed_bench_command`,
`_execute_bench_command`) -/

/-- The `safe_patterns` loop: `re.match` against anchored literal patterns
is equality. -/
def safePatternHit (arg : String) : Bool :=
  arg = "--help" || arg = "-h" || arg = "version" || arg = "--version" || arg = "--site"

/-- Embedding of `ERPNextExecutor._is_allowed_bench_command`, with the two command sets
abstracted as parameters (the class attributes `BLOCKED_ADMIN_COMMANDS` and
`ALLOWED_BENCH_COMMANDS` are the values used by the executor).  The final
`--site` branch is unreachable in execution order because the safe-pattern
check already accepted a literal `--site` first argument; it is kept for
textual fidelity. -/
def isAllowedBenchCommandWith (blocked allowed : List String) (cmdParts : List String) : Bool :=
  match cmdParts with
  | [] => false
  | firstArg :: _ =>
    if blocked.contains firstArg then false
    else if allowed.contains firstArg then true
    else if safePatternHit firstArg then true
    else if cmdParts.length ≥ 3 && firstArg = "--site" then
      match cmdParts.drop 2 with
      | actual :: _ => allowed.contains actual && !(blocked.contains actual)
      | [] => false
    else false

def isAllowedBenchCommand (cmdParts : List String) : Bool :=
  isAllowedBenchCommandWith BLOCKED_ADMIN_COMMANDS ALLOWED_BENCH_COMMANDS cmdParts

/-- The `--site` insertion of `_execute_bench_command`: when there is a
second token and it is not `--site`, `--site <siteName>` is spliced in
after the first token. -/
def insertSite (siteName : String) (cmdParts : List String) : List String :=
  match cmdParts with
  | c0 :: c1 :: rest =>
    if c1 ≠ "--site" then c0 :: "--site" :: siteName :: c1 :: rest else cmdParts
  | _ => cmdParts

/-- The argv built by `_execute_bench_command`.  Commands reach this point
only after the metacharacter screen, so they contain no quotes, backslashes
or other shell-special characters and `shlex.split` coincides with
whitespace splitting. -/
def benchCmdParts (siteName command : String) : List String :=
  insertSite siteName
    (if pyStartsWith command "bench " then pySplitWs command
     else "bench" :: pySplitWs command)

/-- Embedding of the argv slice: drop three leading tokens when `--site`
occurs anywhere in the argv, otherwise drop one. -/
def benchCommandArgs (siteName command : String) : List String :=
  let ps := benchCmdParts siteName command
  if ps.contains "--site" then ps.drop 3 else ps.drop 1

/-- Embedding of `ERPNextExecutor._execute_bench_command`. -/
def executeBenchCommand (env : Env) (command : String) : ExecutionResult × List Event :=
  let ps := benchCmdParts env.siteName command
  if !(isAllowedBenchCommand (benchCommandArgs env.siteName command)) then
    (errorResult "Bench command not allowed" env.elapsedMs, [])
  else
    match env.runProc ps with
    | ProcResult.timedOut => (errorResult "Command timed out" env.elapsedMs, [Event.procRun ps])
    | ProcResult.failed msg =>
      (errorResult ("Execution error: " ++ msg) env.elapsedMs, [Event.procRun ps])
    | ProcResult.finished out =>
      if out.returncode = 0 then
        ({ success := true, output := some out.stdout,
           error := some (if out.stderr ≠ "" then out.stderr else ""),
           executionTime := some env.elapsedMs }, [Event.procRun ps])
      else
        ({ success := false,
           output := some (if out.stdout ≠ "" then out.stdout else ""),
           error := some (if out.stderr ≠ "" then out.stderr else "Command failed"),
           executionTime := some env.elapsedMs }, [Event.procRun ps])

/-! ### Gateway Orchestrator (`ERPNextExecutor.execute_command`) -/

/-- Embedding of `ERPNextExecutor.execute_command`.  `safeMode` is the constructor
argument `safe_mode`; the remaining collaborators live in `env`.  The Python
code tests `_is_sql_command` twice (once to skip the security screen, once
to dispatch); classification is pure, so the two tests are merged into one
branch here.  Only string commands are modelled (the `not isinstance(command,
str)` arm rejects non-strings before any of the behaviour specified). -/
def executeCommand (env : Env) (safeMode : Bool) (command : String) (force : Bool) :
    ExecutionResult × List Event :=
  if command = "" then (errorResult "Invalid command" env.elapsedMs, [])
  else
    let cmd := pyStrip command
    if cmd = "" then (errorResult "Empty command" env.elapsedMs, [])
    else if isSqlCommand cmd then executeSqlCommand env cmd force
    else
      let chk := performSecurityChecks cmd
      if chk.safe then
        if isApiCommand cmd then executeApiCommand env cmd
        else if isBenchCommand cmd then
          if safeMode then
            (errorResult "Bench commands disabled in safe mode" env.elapsedMs, [])
          else executeBenchCommand env cmd
        else (errorResult "Command type not recognized or not allowed" env.elapsedMs, [])
      else (errorResult chk.reason env.elapsedMs, [])

/-- A concrete environment for witnesses and counterexamples: confirmation
flag set, permissive document store, inert backends. -/
def defaultEnv : Env where
  siteName := "frontend1"
  elapsedMs := 5
  getSettings := Except.ok (some ⟨true⟩)
  db := fun _ _ => Except.ok []
  rowCount := Except.ok (some 0)
  runProc := fun _ => ProcResult.finished ⟨0, "", ""⟩
  hasPermission := fun _ _ _ => true
  docExists := fun _ _ => false
  insertDoc := fun _ data => Except.ok ("CUST-00001", data)
  getDoc := fun _ _ => Except.error "missing"
  saveDoc := fun _ _ _ => Except.error "missing"
  deleteDoc := fun _ _ => Except.error "missing"
  getAll := fun _ _ => Except.ok []
  searchSql := fun _ _ _ => Except.ok []

/-- The mutating-keyword set exactly as the specification states it
(section 4.3); to be compared with the transactional branch list
`sqlTxnKeywords` actually used by the source. -/
def specMutatingKeywords : List String :=
  ["INSERT", "UPDATE", "DELETE", "CREATE", "DROP", "ALTER", "TRUNCATE",
   "REPLACE", "MERGE", "CALL", "EXECUTE"]

/-- Counterexample input for claim C2: a document-operation command
containing a double quote. -/
def c2cmd : String := "new Customer with customer_name=\"ABC\""

/-- Counterexample environment and input for claim C3: a backend that
raises on every statement, and a statement led by REPLACE. -/
def c3env : Env := { defaultEnv with db := fun _ _ => Except.error "boom" }

def c3cmd : String := "REPLACE INTO t VALUES 1"

/-- Failing input for claim C7: a document-creation command whose result
inherits the document-store result shape. -/
def c7cmd : String := "new Customer with customer_name=ABC"

/-- Parser input of claim C8. -/
def c8cmd : String :=
  "create Customer with customer_name=\"ABC\" and customer_type=\"Company\""

/-! ## Helper lemmas -/

theorem executeCommand_sql_dispatch (env : Env) (sm : Bool) (c : String) (force : Bool)
    (hstrip : pyStrip c = c) (hsql : isSqlCommand c = true) :
    executeCommand env sm c force = executeSqlCommand env c force := by
  have hne : c ≠ "" := by
    intro h
    rw [h] at hsql
    exact absurd hsql (by decide)
  simp [executeCommand, hstrip, hne, hsql]

theorem runSql_trace (env : Env) (c : String) :
    dbExecuteCount (runSqlStatement env c).2 = 1 ∧
      (runSqlStatement env c).1.requires_confirmation = none := by
  by_cases h1 : pyUpper ((pySplitWs (pyStrip c)).head?.getD "") ∈ sqlTxnKeywords
  · rcases hdb : env.db c false with e | rows
    · simp [runSqlStatement, h1, hdb, dbExecuteCount, isDbExecute, errorResult]
    · rcases hrc : env.rowCount with e | n <;>
        simp [runSqlStatement, h1, hdb, hrc, dbExecuteCount, isDbExecute, errorResult]
  · by_cases h2 : pyUpper ((pySplitWs (pyStrip c)).head?.getD "") ∈ sqlInfoKeywords
    · rcases hdb : env.db c false with e | rows <;>
        simp [runSqlStatement, h1, h2, hdb, dbExecuteCount, isDbExecute, errorResult]
    · rcases hdb : env.db c true with e | rows <;>
        simp [runSqlStatement, h1, h2, hdb, dbExecuteCount, isDbExecute, errorResult]

theorem securityChecks_metachar (c : String) (ch : Char)
    (hch : ch ∈ SHELL_METACHARACTERS) (hin : c.data.contains ch = true) :
    ∃ c0, c0 ∈ SHELL_METACHARACTERS ∧ c.data.contains c0 = true ∧
      performSecurityChecks c = ⟨false, metaReason c0⟩ := by
  have hsome : (findMetachar c).isSome := by
    unfold findMetachar
    rw [List.find?_isSome]
    exact ⟨ch, hch, hin⟩
  obtain ⟨c0, hc0⟩ := Option.isSome_iff_exists.mp hsome
  refine ⟨c0, List.mem_of_find?_eq_some hc0, List.find?_some hc0, ?_⟩
  simp [performSecurityChecks, hc0]

/-! ## Claim theorems -/

/-- Claim C1: for every SQL-classified command, when the confirmation flag
is set and `force=false`, `executeCommand` returns immediately with
`requires_confirmation = true` and the command descriptor equal to the
command text, and no statement reaches the query backend; with `force=true`
exactly one statement execution reaches the backend, and
`requires_confirmation` is absent. -/
theorem sql_confirmation_gate (env : Env) (sm : Bool) (c : String) (s : Settings)
    (hstrip : pyStrip c = c) (hsql : isSqlCommand c = true)
    (hget : env.getSettings = Except.ok (some s))
    (hconf : s.confirm_sql_operations = true) :
    (executeCommand env sm c false).1.requires_confirmation = some true ∧
    (executeCommand env sm c false).1.command = some c ∧
    (executeCommand env sm c false).2 = [] ∧
    dbExecuteCount (executeCommand env sm c true).2 = 1 ∧
    ((executeCommand env sm c true).1.requires_confirmation = none ∨
      (executeCommand env sm c true).1.requires_confirmation = some false) := by
  rw [executeCommand_sql_dispatch env sm c false hstrip hsql,
      executeCommand_sql_dispatch env sm c true hstrip hsql]
  have hflag : sqlConfirmFlag env false = true := by
    simp [sqlConfirmFlag, hget, hconf]
  have hflagT : sqlConfirmFlag env true = false := rfl
  refine ⟨?_, ?_, ?_, ?_, Or.inl ?_⟩ <;>
    simp [executeSqlCommand, hflag, hflagT, (runSql_trace env c).1, (runSql_trace env c).2]

/-- Witness for C1 at a concrete SQL command and environment. -/
theorem sql_confirmation_gate_witness :
    (executeCommand defaultEnv false "SELECT * FROM x" false).1.requires_confirmation =
        some true ∧
    (executeCommand defaultEnv false "SELECT * FROM x" false).1.command =
        some "SELECT * FROM x" ∧
    (executeCommand defaultEnv false "SELECT * FROM x" false).2 = [] ∧
    dbExecuteCount (executeCommand defaultEnv false "SELECT * FROM x" true).2 = 1 ∧
    ((executeCommand defaultEnv false "SELECT * FROM x" true).1.requires_confirmation =
        none ∨
      (executeCommand defaultEnv false "SELECT * FROM x" true).1.requires_confirmation =
        some false) :=
  sql_confirmation_gate defaultEnv false "SELECT * FROM x" ⟨true⟩
    (by decide) (by decide) rfl rfl

/-- Claim C5: every command containing a shell metacharacter receives an
unsafe verdict from the Screener, with an offending character named in the
reason; and SQL-classified commands are exempt because `executeCommand`
routes them to the SQL engine without ever consulting the Screener. -/
theorem screener_metachar_unsafe (c : String) (ch : Char)
    (hch : ch ∈ SHELL_METACHARACTERS) (hin : c.data.contains ch = true)
    (env : Env) (sm force : Bool) (c2 : String)
    (hstrip : pyStrip c2 = c2) (hsql : isSqlCommand c2 = true) :
    ((performSecurityChecks c).safe = false ∧
      ∃ c0, c0 ∈ SHELL_METACHARACTERS ∧ c.data.contains c0 = true ∧
        (performSecurityChecks c).reason = metaReason c0) ∧
    executeCommand env sm c2 force = executeSqlCommand env c2 force := by
  obtain ⟨c0, hmem, hpred, heq⟩ := securityChecks_metachar c ch hch hin
  exact ⟨⟨by rw [heq], c0, hmem, hpred, by rw [heq]⟩,
    executeCommand_sql_dispatch env sm c2 force hstrip hsql⟩

/-- Witness for C5: a command containing `;` is rejected by the Screener,
and a concrete SQL command bypasses it. -/
theorem screener_metachar_unsafe_witness :
    ((performSecurityChecks "echo hi; rm x").safe = false ∧
      ∃ c0, c0 ∈ SHELL_METACHARACTERS ∧ ("echo hi; rm x").data.contains c0 = true ∧
        (performSecurityChecks "echo hi; rm x").reason = metaReason c0) ∧
    executeCommand defaultEnv false "SELECT 1" true =
      executeSqlCommand defaultEnv "SELECT 1" true :=
  screener_metachar_unsafe "echo hi; rm x" ';' (by decide) (by decide)
    defaultEnv false true "SELECT 1" (by decide) (by decide)

/-- Claim C6: every nonempty string whose first whitespace-delimited token,
case-folded, is a member of the fixed SQL-keyword set is classified
`SqlQuery`, regardless of input casing. -/
theorem classifier_sql_keyword (c w : String) (ws : List String)
    (hsplit : pySplitWs (pyStrip c) = w :: ws)
    (hkw : sqlKeywords.contains (pyUpper w) = true) :
    classifyCommand c = CommandKind.SqlQuery := by
  have hsql : isSqlCommand c = true := by
    unfold isSqlCommand
    rw [hsplit]
    exact hkw
  simp [classifyCommand, hsql]

/-- Witness for C6 at a mixed-case command. -/
theorem classifier_sql_keyword_witness :
    classifyCommand " sElEcT id FROM tabUser" = CommandKind.SqlQuery :=
  classifier_sql_keyword " sElEcT id FROM tabUser" "sElEcT" ["id", "FROM", "tabUser"]
    (by decide) (by decide)

/-- Claim C9 (implicit): the SQL confirmation gate fails open — when the
settings read raises, the exception is swallowed and a `force=false` call
behaves exactly like a `force=true` call: the statement proceeds to
execution (one backend statement execution, no confirmation round-trip). -/
theorem sql_gate_fails_open (env : Env) (sm : Bool) (c : String)
    (hstrip : pyStrip c = c) (hsql : isSqlCommand c = true)
    (hset : env.getSettings = Except.error ()) :
    executeCommand env sm c false = executeCommand env sm c true ∧
    (executeCommand env sm c false).1.requires_confirmation = none ∧
    dbExecuteCount (executeCommand env sm c false).2 = 1 := by
  rw [executeCommand_sql_dispatch env sm c false hstrip hsql,
      executeCommand_sql_dispatch env sm c true hstrip hsql]
  have h0 : sqlConfirmFlag env false = false := by simp [sqlConfirmFlag, hset]
  have h1 : sqlConfirmFlag env true = false := rfl
  refine ⟨by simp [executeSqlCommand, h0, h1], ?_, ?_⟩ <;>
    simp [executeSqlCommand, h0, (runSql_trace env c).1, (runSql_trace env c).2]

/-- Witness for C9 at a concrete environment whose settings read raises. -/
theorem sql_gate_fails_open_witness :
    executeCommand { defaultEnv with getSettings := Except.error () } false
        "DROP TABLE tabUser" false =
      executeCommand { defaultEnv with getSettings := Except.error () } false
        "DROP TABLE tabUser" true ∧
    (executeCommand { defaultEnv with getSettings := Except.error () } false
        "DROP TABLE tabUser" false).1.requires_confirmation = none ∧
    dbExecuteCount (executeCommand { defaultEnv with getSettings := Except.error () } false
        "DROP TABLE tabUser" false).2 = 1 :=
  sql_gate_fails_open { defaultEnv with getSettings := Except.error () } false
    "DROP TABLE tabUser" (by decide) (by decide) rfl

/-- Counterexample for claim C2: `new Customer with customer_name="ABC"` is
classified as a document operation, yet `executeCommand` rejects it with the
Screener metacharacter reason for the double quote and dispatches nothing —
the Screener is applied to document operations, not only to tool
invocations and unrecognized commands. -/
theorem screener_hits_doc_op_cex :
    classifyCommand c2cmd = CommandKind.DocumentOperation ∧
    (executeCommand defaultEnv false c2cmd false).1.success = false ∧
    (executeCommand defaultEnv false c2cmd false).1.error = some (metaReason '"') ∧
    (executeCommand defaultEnv false c2cmd false).2 = [] := by
  refine ⟨by decide, by decide, by decide, by decide⟩

/-- Claim C2 amended: the Screener is applied to every command that is not
classified `SqlQuery` — including document operations — so a
document-operation command containing a shell metacharacter is rejected
with the Screener verdict as the error and no backend or parser call is
made; only SQL-classified commands bypass the Screener. -/
theorem screener_applies_to_all_non_sql (env : Env) (sm force : Bool) (c : String) (ch : Char)
    (hstrip : pyStrip c = c) (hne : c ≠ "")
    (hnsql : isSqlCommand c = false)
    (hch : ch ∈ SHELL_METACHARACTERS) (hin : c.data.contains ch = true) :
    (performSecurityChecks c).safe = false ∧
    executeCommand env sm c force =
      (errorResult ((performSecurityChecks c).reason) env.elapsedMs, []) := by
  obtain ⟨c0, _, _, heq⟩ := securityChecks_metachar c ch hch hin
  refine ⟨by rw [heq], ?_⟩
  simp [executeCommand, hstrip, hne, hnsql, heq]

/-- Witness for the amended C2 at the concrete document operation. -/
theorem screener_applies_to_all_non_sql_witness :
    (performSecurityChecks c2cmd).safe = false ∧
    executeCommand defaultEnv false c2cmd false =
      (errorResult ((performSecurityChecks c2cmd).reason) defaultEnv.elapsedMs, []) :=
  screener_applies_to_all_non_sql defaultEnv false false c2cmd '"'
    (by decide) (by decide) (by decide) (by decide) (by decide)

/-- Counterexample for claim C3: REPLACE is in the mutating set the claim
names, and the statement is SQL-classified, yet on a backend error the
executed command produces a bare statement-execution trace — no
transaction is begun and no rollback is issued. -/
theorem mutating_txn_cex :
    "REPLACE" ∈ specMutatingKeywords ∧
    isSqlCommand c3cmd = true ∧
    (executeCommand c3env false c3cmd true).1.success = false ∧
    (executeCommand c3env false c3cmd true).2 = [Event.dbExecute c3cmd] := by
  refine ⟨by decide, by decide, by decide, by decide⟩

/-- Claim C3 amended: the transactional discipline holds exactly for the
seven-keyword branch list `INSERT, UPDATE, DELETE, CREATE, DROP, ALTER,
TRUNCATE` (not for `REPLACE, MERGE, CALL, EXECUTE`): such a statement,
when executed, is wrapped in begin/commit, and on a backend error the
rollback is issued before the error result (with `success = false`) is
returned. -/
theorem mutating_txn_amended (envE envO : Env) (sm : Bool) (c : String) (e : String)
    (rows : List Row) (n : Option Int)
    (hstrip : pyStrip c = c) (hsql : isSqlCommand c = true)
    (hfw : pyUpper ((pySplitWs (pyStrip c)).head?.getD "") ∈ sqlTxnKeywords)
    (hdbE : envE.db c false = Except.error e)
    (hdbO : envO.db c false = Except.ok rows)
    (hrc : envO.rowCount = Except.ok n) :
    (executeCommand envE sm c true).1.success = false ∧
    (executeCommand envE sm c true).1.error = some ("SQL error: " ++ e) ∧
    (executeCommand envE sm c true).2 =
      [Event.dbBegin, Event.dbExecute c, Event.dbRollback] ∧
    (executeCommand envO sm c true).1.success = true ∧
    (executeCommand envO sm c true).2 =
      [Event.dbBegin, Event.dbExecute c, Event.dbCommit, Event.dbRowCount] := by
  rw [executeCommand_sql_dispatch envE sm c true hstrip hsql,
      executeCommand_sql_dispatch envO sm c true hstrip hsql]
  have h1 : sqlConfirmFlag envE true = false := rfl
  have h2 : sqlConfirmFlag envO true = false := rfl
  refine ⟨?_, ?_, ?_, ?_, ?_⟩ <;>
    simp [executeSqlCommand, h1, h2, runSqlStatement, hfw, hdbE, hdbO, hrc, errorResult]

/-- Witness for the amended C3: a DELETE against an erroring backend rolls
back, and against a succeeding backend commits. -/
theorem mutating_txn_amended_witness :
    (executeCommand c3env false "DELETE FROM t" true).1.success = false ∧
    (executeCommand c3env false "DELETE FROM t" true).1.error =
      some ("SQL error: " ++ "boom") ∧
    (executeCommand c3env false "DELETE FROM t" true).2 =
      [Event.dbBegin, Event.dbExecute "DELETE FROM t", Event.dbRollback] ∧
    (executeCommand defaultEnv false "DELETE FROM t" true).1.success = true ∧
    (executeCommand defaultEnv false "DELETE FROM t" true).2 =
      [Event.dbBegin, Event.dbExecute "DELETE FROM t", Event.dbCommit,
       Event.dbRowCount] :=
  mutating_txn_amended c3env defaultEnv false "DELETE FROM t" "boom" [] (some 0)
    (by decide) (by decide) (by decide) rfl rfl rfl

/-- Claim C4: a tool-invocation whose verb (first validated token) is in the
blocked set is denied on every validation path — even when the same verb is
also in the allowed set, because the block check runs first — and the
executor returns a failure without running any process. -/
theorem blocked_verb_always_denied (blocked allowed parts : List String) (v : String)
    (env : Env) (cmd : String) (v2 : String)
    (hv : parts.head? = some v) (hb : v ∈ blocked)
    (hv2 : (benchCommandArgs env.siteName cmd).head? = some v2)
    (hb2 : v2 ∈ BLOCKED_ADMIN_COMMANDS) :
    isAllowedBenchCommandWith blocked allowed parts = false ∧
    (executeBenchCommand env cmd).1.success = false ∧
    (executeBenchCommand env cmd).2 = [] := by
  have part1 : ∀ (bl al ps : List String) (u : String), ps.head? = some u →
      u ∈ bl → isAllowedBenchCommandWith bl al ps = false := by
    intro bl al ps u hu hblu
    cases ps with
    | nil => simp at hu
    | cons a t =>
      have ha : a = u := by simpa using hu
      subst ha
      simp [isAllowedBenchCommandWith, hblu]
  have hnal : isAllowedBenchCommand (benchCommandArgs env.siteName cmd) = false :=
    part1 _ _ _ _ hv2 hb2
  exact ⟨part1 _ _ _ _ hv hb,
    by simp [executeBenchCommand, hnal, errorResult],
    by simp [executeBenchCommand, hnal]⟩

/-- Witness for C4: `migrate` is denied by the gate even when placed in the
allowed set as well, and `bench migrate` runs no process. -/
theorem blocked_verb_always_denied_witness :
    isAllowedBenchCommandWith ["migrate"] ["migrate"] ["migrate"] = false ∧
    (executeBenchCommand defaultEnv "bench migrate").1.success = false ∧
    (executeBenchCommand defaultEnv "bench migrate").2 = [] :=
  blocked_verb_always_denied ["migrate"] ["migrate"] ["migrate"] "migrate"
    defaultEnv "bench migrate" "migrate" rfl (by decide) (by decide) (by decide)

/-- Claim C7 (code bug): a document-operation result does not carry the four
mandatory envelope fields — on the create path the returned dictionary has
`success` and `executionTime` but neither `output` nor `error`, contradicting
the docstring of `execute_command` and the specified envelope shape. -/
theorem doc_result_missing_fields :
    (executeCommand defaultEnv false c7cmd false).1.success = true ∧
    (executeCommand defaultEnv false c7cmd false).1.output = none ∧
    (executeCommand defaultEnv false c7cmd false).1.error = none ∧
    (executeCommand defaultEnv false c7cmd false).1.executionTime = some 5 := by
  refine ⟨by decide, by decide, by decide, by decide⟩

/-- Claim C8: the Document-Operation Parser maps
`create Customer with customer_name="ABC" and customer_type="Company"` to a
Create operation on entity type `Customer` with exactly those two fields,
and the key/value extraction accepts double-quoted, single-quoted and bare
whitespace-terminated values. -/
theorem create_parse_kv :
    parseCreateCommand c8cmd =
      some ("Customer", [("customer_name", "ABC"), ("customer_type", "Company")]) ∧
    findKV ("k=\"v1\"").data = [("k", "v1")] ∧
    findKV ("k=" ++ sq ++ "v2" ++ sq).data = [("k", "v2")] ∧
    findKV "k=v3".data = [("k", "v3")] := by
  refine ⟨by decide, by decide, by decide, by decide⟩

/-- Claim C10 (implicit): with safe mode enabled, a tool-invocation command
that passes the screen is answered with the fixed safe-mode error before
any tokenization, list validation or process execution (empty event trace),
even when its verb is allowed; and safe mode has no effect on SQL or
document-operation commands. -/
theorem safe_mode_blocks_bench_only (env : Env) (c : String) (force : Bool)
    (hstrip : pyStrip c = c) (hne : c ≠ "")
    (hnsql : isSqlCommand c = false) (hsec : (performSecurityChecks c).safe = true)
    (hnapi : isApiCommand c = false) (hbench : isBenchCommand c = true)
    (c2 : String) (env2 : Env) (force2 : Bool)
    (hc2 : isSqlCommand (pyStrip c2) = true ∨ isApiCommand (pyStrip c2) = true) :
    executeCommand env true c force =
      (errorResult "Bench commands disabled in safe mode" env.elapsedMs, []) ∧
    executeCommand env2 true c2 force2 = executeCommand env2 false c2 force2 := by
  constructor
  · simp [executeCommand, hstrip, hne, hnsql, hsec, hnapi, hbench]
  · by_cases h0 : c2 = ""
    · simp [executeCommand, h0]
    · by_cases h1 : pyStrip c2 = ""
      · simp [executeCommand, h0, h1]
      · by_cases h2 : isSqlCommand (pyStrip c2) = true
        · simp [executeCommand, h0, h1, h2]
        · have h4 : isApiCommand (pyStrip c2) = true := by
            rcases hc2 with h | h
            · exact absurd h h2
            · exact h
          by_cases h3 : (performSecurityChecks (pyStrip c2)).safe = true
          · simp [executeCommand, h0, h1, h2, h3, h4]
          · simp [executeCommand, h0, h1, h2, h3]

/-- Witness for C10: `bench version` (an allowed verb) is refused in safe
mode, and a concrete SQL command behaves identically in and out of safe
mode. -/
theorem safe_mode_blocks_bench_only_witness :
    executeCommand defaultEnv true "bench version" false =
      (errorResult "Bench commands disabled in safe mode" defaultEnv.elapsedMs, []) ∧
    executeCommand defaultEnv true "SELECT 1" false =
      executeCommand defaultEnv false "SELECT 1" false :=
  safe_mode_blocks_bench_only defaultEnv "bench version" false
    (by decide) (by decide) (by decide) (by decide) (by decide) (by decide)
    "SELECT 1" defaultEnv false (Or.inl (by decide))

end Osmium
